import Mathlib

/- Verification of TrailMapper's numeric core: the coordinate transform,
   the auto-calibration optimizer and the route waypoint optimizer.

   The JavaScript sources are shallowly embedded: JavaScript numbers are
   modelled as real numbers (the sources' arithmetic is trigonometric, so a
   discrete carrier is not available), objects become structures, `null`
   returns become `Option.none`, and a thrown exception is modelled as
   `Except.error` carrying the thrown message.  Field-presence coalescing
   such as `routeData.wayPoint || routeData.wayPoints || ...` is modelled
   with `Option` fields and `Option.orElse`. -/

noncomputable section

namespace TrailMapper

/-- JS Math.atan2 y x, as used by the haversine implementations. -/
def atan2 (y x : ℝ) : ℝ :=
  if 0 < x then Real.arctan (y / x)
  else if x < 0 then
    (if 0 ≤ y then Real.arctan (y / x) + Real.pi else Real.arctan (y / x) - Real.pi)
  else if 0 < y then Real.pi / 2
  else if y < 0 then -(Real.pi / 2)
  else 0

/-- JS Math.round for the finite inputs the model ranges over. -/
def jsRound (x : ℝ) : ℝ := ((⌊x + 1 / 2⌋ : ℤ) : ℝ)

/-- The Web-Mercator meters-per-pixel expression
    `156543.03392 * Math.cos(lat * Math.PI / 180) / Math.pow(2, zoom)`,
    inlined verbatim at each of its use sites in the sources
    (image-overlay.js updateImageDisplay, part_008 convertImageToMapCoords,
    calculateOptimalScale and estimateInitialScale). -/
def metersPerPixel (lat : ℝ) (zoom : ℕ) : ℝ :=
  156543.03392 * Real.cos (lat * Real.pi / 180) / 2 ^ zoom

/-- A waypoint record of a route JSON document (route-optimizer.js,
    part_005).  `index` and `type` may be absent. -/
structure Waypoint where
  imageX : ℝ
  imageY : ℝ
  index : Option ℤ
  type : Option String
  deriving Inhabited

/-- A waypoint enriched with map coordinates, the JS spread
    `{ ...waypoint, lat: mapPosition[0], lng: mapPosition[1] }` built in
    optimizeRoute (route-optimizer.js lines 113-124). -/
structure CWaypoint where
  imageX : ℝ
  imageY : ℝ
  index : Option ℤ
  type : Option String
  lat : ℝ
  lng : ℝ
  deriving Inhabited

/-- The JS accessor `point.lat || point.latitude` (route-optimizer.js line
    149) read off an enriched waypoint: the spread object carries a `lat`
    field and no `latitude` field, so a falsy `lat` — the number 0 — falls
    through to the absent `latitude` and the read yields undefined
    (modelled as `none`). -/
def CWaypoint.latAcc (w : CWaypoint) : Option ℝ :=
  if w.lat = 0 then none else some w.lat

/-- The JS accessor `point.lng || point.longitude` read off an enriched
    waypoint; undefined when `lng` is the falsy number 0. -/
def CWaypoint.lngAcc (w : CWaypoint) : Option ℝ :=
  if w.lng = 0 then none else some w.lng

/-- The pair of accessor reads of an enriched waypoint: `none` as soon as
    either read is undefined — every arithmetic value calculateDistance
    builds from it is then NaN. -/
def CWaypoint.jsPos (w : CWaypoint) : Option (ℝ × ℝ) :=
  match w.latAcc, w.lngAcc with
  | some lat, some lng => some (lat, lng)
  | _, _ => none

/-- The stored coordinate pair of an enriched waypoint.  This is not the
    JS accessor (see jsPos): it is the projection the specification-side
    greedy recurrence uses, which speaks about the waypoints' actual
    coordinates. -/
def CWaypoint.coords (w : CWaypoint) : ℝ × ℝ := (w.lat, w.lng)

/-- JS comparison `a < b` on possibly-NaN numbers (`none` models NaN):
    false whenever either side is NaN. -/
def jsLt (a b : Option ℝ) : Bool :=
  match a, b with
  | some x, some y => decide (x < y)
  | _, _ => false

/-- JS addition on possibly-NaN numbers: NaN absorbs. -/
def jsAdd (a b : Option ℝ) : Option ℝ :=
  match a, b with
  | some x, some y => some (x + y)
  | _, _ => none

/-- A marker held by the GPS data store (gps-data.js). -/
structure GpsMarker where
  id : String
  lat : ℝ
  lng : ℝ

/-- The record getGpsPointByName builds from a found marker
    (route-optimizer.js lines 233-240). -/
structure GpsPoint where
  id : String
  latitude : ℝ
  longitude : ℝ

/-- The coordinates the accessors read off a getGpsPointByName result: the
    record has latitude/longitude and no lat/lng, and JS `undefined || v`
    is `v` even when `v` is the falsy 0, so these reads are always
    defined. -/
def GpsPoint.pos (p : GpsPoint) : ℝ × ℝ := (p.latitude, p.longitude)

/-- A route JSON document, with the historical alternative key names the
    sources coalesce over.  The JS field `end` is called `end_` because
    `end` is a Lean keyword. -/
structure Route where
  wayPoint : Option (List Waypoint)
  wayPoints : Option (List Waypoint)
  points : Option (List Waypoint)
  startPoint : Option String
  start : Option String
  startPointId : Option String
  routeInfoStartPoint : Option String
  endPoint : Option String
  end_ : Option String
  endPointId : Option String
  routeInfoEndPoint : Option String

/-- `routeData.wayPoint || routeData.wayPoints || routeData.points || []`,
    defined identically in route-optimizer.js and part_005.  A present but
    empty array is truthy in JS, so `Option.orElse` is the exact model. -/
def getWaypoints (routeData : Route) : List Waypoint :=
  (((routeData.wayPoint).orElse (fun _ => routeData.wayPoints)).orElse
    (fun _ => routeData.points)).getD []

/-- The startPoint/endPoint name resolution of route-optimizer.js lines
    15-20 (non-empty strings are truthy, so `Option.orElse` models the
    `||` chain for the string values that occur). -/
def getRoutePoints (routeData : Route) : Option String × Option String :=
  ((((routeData.startPoint).orElse (fun _ => routeData.start)).orElse
      (fun _ => routeData.startPointId)).orElse (fun _ => routeData.routeInfoStartPoint),
   (((routeData.endPoint).orElse (fun _ => routeData.end_)).orElse
      (fun _ => routeData.endPointId)).orElse (fun _ => routeData.routeInfoEndPoint))

namespace RouteOptimizer

/-- getGpsPointByName (route-optimizer.js lines 221-244): `gpsData` may be
    absent, the name may be absent, an empty marker list yields null, and
    otherwise the first marker with matching id is repackaged. -/
def getGpsPointByName (gpsData : Option (List GpsMarker)) (pointName : Option String) :
    Option GpsPoint :=
  match gpsData, pointName with
  | some gpsMarkers, some name =>
      if gpsMarkers.length = 0 then none
      else (gpsMarkers.find? (fun marker => marker.id == name)).map
        (fun foundMarker =>
          { id := foundMarker.id, latitude := foundMarker.lat, longitude := foundMarker.lng })
  | _, _ => none

/-- The arithmetic of calculateDistance (route-optimizer.js lines
    153-165): haversine with Earth radius 6371000 m, on coordinate values
    that the accessors read as defined numbers.  NaN propagation from an
    undefined accessor read is handled by calculateDistanceJs. -/
def calculateDistance (point1 point2 : ℝ × ℝ) : ℝ :=
  let lat1 := point1.1
  let lng1 := point1.2
  let lat2 := point2.1
  let lng2 := point2.2
  let R : ℝ := 6371000
  let phi1 := lat1 * Real.pi / 180
  let phi2 := lat2 * Real.pi / 180
  let dphi := (lat2 - lat1) * Real.pi / 180
  let dlam := (lng2 - lng1) * Real.pi / 180
  let a := Real.sin (dphi / 2) * Real.sin (dphi / 2) +
    Real.cos phi1 * Real.cos phi2 * Real.sin (dlam / 2) * Real.sin (dlam / 2)
  let c := 2 * atan2 (Real.sqrt a) (Real.sqrt (1 - a))
  R * c

/-- calculateDistance as the optimizer invokes it, on the accessor reads
    of the two points: an undefined coordinate on either side poisons
    every intermediate of lines 154-165, so the result is NaN (`none`);
    otherwise it is the haversine of the read coordinates. -/
def calculateDistanceJs (point1 point2 : Option (ℝ × ℝ)) : Option ℝ :=
  match point1, point2 with
  | some p1, some p2 => some (calculateDistance p1 p2)
  | _, _ => none

/-- calculateTotalDistance (route-optimizer.js lines 169-187): the sum of
    consecutive distances over start, waypoints, end; the fold state is
    (totalDistance, currentPoint), and a NaN segment — an undefined
    accessor read on a waypoint — poisons the running total.  The start
    and end points come from getGpsPointByName, whose reads are always
    defined. -/
def calculateTotalDistance (startPoint endPoint : ℝ × ℝ) (waypoints : List CWaypoint) :
    Option ℝ :=
  if waypoints.length = 0 then some (calculateDistance startPoint endPoint)
  else
    let acc := waypoints.foldl
      (fun (acc : Option ℝ × Option (ℝ × ℝ)) waypoint =>
        (jsAdd acc.1 (calculateDistanceJs acc.2 waypoint.jsPos), waypoint.jsPos))
      (some 0, some startPoint)
    jsAdd acc.1 (calculateDistanceJs acc.2 (some endPoint))

/-- The scan loop of optimizeWaypointOrder (route-optimizer.js lines
    204-210): starting from the state (nearestIndex, nearestDistance) and
    absolute position `i`, walk the remaining tail and keep the first
    strictly smaller distance.  The JS `<` is false on NaN, so a waypoint
    whose accessor read is undefined never replaces the running best, and
    a NaN running best is never replaced at all. -/
def nearestIdxAux (currentPoint : Option (ℝ × ℝ)) (tail : List CWaypoint) (i : ℕ)
    (nearestIndex : ℕ) (nearestDistance : Option ℝ) : ℕ × Option ℝ :=
  match tail with
  | [] => (nearestIndex, nearestDistance)
  | w :: rest =>
    let distance := calculateDistanceJs currentPoint w.jsPos
    if jsLt distance nearestDistance then nearestIdxAux currentPoint rest (i + 1) i distance
    else nearestIdxAux currentPoint rest (i + 1) nearestIndex nearestDistance

theorem nearestIdxAux_fst_lt (currentPoint : Option (ℝ × ℝ)) :
    ∀ (tail : List CWaypoint) (i nearestIndex : ℕ) (nearestDistance : Option ℝ) (bound : ℕ),
      nearestIndex < bound → i + tail.length ≤ bound →
      (nearestIdxAux currentPoint tail i nearestIndex nearestDistance).1 < bound := by
  intro tail
  induction tail with
  | nil => intro i nearestIndex nearestDistance bound hb _; simpa [nearestIdxAux] using hb
  | cons w rest ih =>
    intro i nearestIndex nearestDistance bound hb hlen
    simp only [nearestIdxAux]
    by_cases hlt : jsLt (calculateDistanceJs currentPoint w.jsPos) nearestDistance = true
    · rw [if_pos hlt]
      apply ih
      · simp only [List.length_cons] at hlen; omega
      · simp only [List.length_cons] at hlen; omega
    · rw [if_neg hlt]
      apply ih _ _ _ _ hb
      simp only [List.length_cons] at hlen; omega

theorem length_eraseIdx_lt {l : List CWaypoint} {i : ℕ} (h : i < l.length) :
    (l.eraseIdx i).length < l.length := by
  have := List.length_eraseIdx_add_one h
  omega

/-- The while loop of optimizeWaypointOrder (route-optimizer.js lines
    200-215): select the scan's waypoint (the nearest remaining one when
    all distances are defined, with the first index winning ties), splice
    it out, append it and advance to its accessor reads. -/
def optimizeGo (currentPoint : Option (ℝ × ℝ)) (remaining : List CWaypoint) :
    List CWaypoint :=
  match remaining with
  | [] => []
  | r0 :: rest =>
    let scan := nearestIdxAux currentPoint rest 1 0 (calculateDistanceJs currentPoint r0.jsPos)
    let nearestWaypoint := (r0 :: rest).getD scan.1 default
    nearestWaypoint :: optimizeGo nearestWaypoint.jsPos ((r0 :: rest).eraseIdx scan.1)
termination_by remaining.length
decreasing_by
  apply length_eraseIdx_lt
  apply nearestIdxAux_fst_lt
  · simp
  · simp only [List.length_cons]; omega

/-- optimizeWaypointOrder (route-optimizer.js lines 190-218).  The
    endPoint parameter is accepted and ignored, exactly as in the source;
    the start and end coordinates are the (always defined) accessor reads
    of the getGpsPointByName records. -/
def optimizeWaypointOrder (startPoint endPoint : ℝ × ℝ) (waypoints : List CWaypoint) :
    List CWaypoint :=
  if waypoints.length ≤ 1 then waypoints
  else optimizeGo (some startPoint) waypoints

/-- The waypoint projection loop of optimizeRoute (route-optimizer.js
    lines 113-124): convert each waypoint, silently dropping failures, and
    enrich the survivors with lat/lng. -/
def waypointCoords (conv : ℝ → ℝ → Option (ℝ × ℝ)) (wayPoints : List Waypoint) :
    List CWaypoint :=
  wayPoints.filterMap (fun waypoint =>
    (conv waypoint.imageX waypoint.imageY).map (fun mapPosition =>
      { imageX := waypoint.imageX, imageY := waypoint.imageY,
        index := waypoint.index, type := waypoint.type,
        lat := mapPosition.1, lng := mapPosition.2 }))

/-- optimizeRoute (route-optimizer.js lines 91-145).  A JS `throw` is an
    `Except.error`; the surrounding try/catch rethrows inner messages with
    the prefix of line 143, which the model applies at each inner throw
    site.  `conv` stands for the convertImageToMapCoordinates callback. -/
def optimizeRoute (selectedRoute : Option Route) (gpsData : Option (List GpsMarker))
    (conv : ℝ → ℝ → Option (ℝ × ℝ)) : Except String (List CWaypoint) :=
  match selectedRoute with
  | none => Except.error "ルートを選択してください。"
  | some route =>
    let resolved := getRoutePoints route
    match getGpsPointByName gpsData resolved.1 with
    | none =>
      Except.error ("ルートの最適化中にエラーが発生しました: " ++ "開始または終了ポイントが見つかりません。")
    | some startPoint =>
      match getGpsPointByName gpsData resolved.2 with
      | none =>
        Except.error ("ルートの最適化中にエラーが発生しました: " ++ "開始または終了ポイントが見つかりません。")
      | some endPoint =>
        let wayPoints := getWaypoints route
        if wayPoints.length = 0 then
          Except.error ("ルートの最適化中にエラーが発生しました: " ++ "最適化する中間点がありません。")
        else
          let coords := waypointCoords conv wayPoints
          let _originalDistance := calculateTotalDistance startPoint.pos endPoint.pos coords
          let optimizedOrder := optimizeWaypointOrder startPoint.pos endPoint.pos coords
          let _optimizedDistance :=
            calculateTotalDistance startPoint.pos endPoint.pos optimizedOrder
          Except.ok (optimizedOrder.mapIdx
            (fun index waypoint => { waypoint with index := some ((index : ℤ) + 1) }))

/-- Haversine distance from `currentPoint` to the actual coordinates of
    the j-th remaining waypoint (out-of-range indices read the default
    waypoint; they are always guarded by bounds). -/
def distAt (currentPoint : ℝ × ℝ) (remaining : List CWaypoint) (j : ℕ) : ℝ :=
  calculateDistance currentPoint ((remaining.getD j default).coords)

/-- The greedy nearest-neighbor recurrence as the specification words it
    (spec.md §4.3): starting from the current position, repeatedly pick the
    remaining waypoint with minimum distance to the current position —
    the earliest one in input order when distances tie — append it and
    advance to it; the end point never enters the construction. -/
inductive GreedySpec : ℝ × ℝ → List CWaypoint → List CWaypoint → Prop where
  | nil : ∀ currentPoint, GreedySpec currentPoint [] []
  | cons : ∀ currentPoint remaining out i, i < remaining.length →
      (∀ j, j < remaining.length →
        distAt currentPoint remaining i ≤ distAt currentPoint remaining j) →
      (∀ j, j < i → distAt currentPoint remaining i < distAt currentPoint remaining j) →
      GreedySpec ((remaining.getD i default).coords) (remaining.eraseIdx i) out →
      GreedySpec currentPoint remaining ((remaining.getD i default) :: out)

/-- Index r is in range, attains the minimum distance from the current
    position, and is the first index to do so (every earlier index is
    strictly farther). -/
def IsFirstMin (currentPoint : ℝ × ℝ) (remaining : List CWaypoint) (r : ℕ) : Prop :=
  r < remaining.length ∧
  (∀ j, j < remaining.length →
    distAt currentPoint remaining r ≤ distAt currentPoint remaining j) ∧
  (∀ j, j < r → distAt currentPoint remaining r < distAt currentPoint remaining j)

end RouteOptimizer

/-- The natural pixel size of the loaded raster
    (currentImage.naturalWidth / naturalHeight). -/
structure ImageSize where
  naturalWidth : ℝ
  naturalHeight : ℝ

/-- A Leaflet bounds rectangle as read through getNorth/getSouth/getEast/
    getWest. -/
structure Bounds where
  north : ℝ
  south : ℝ
  east : ℝ
  west : ℝ

/-- A pixel-coordinate result { x, y }. -/
structure PixelPoint where
  x : ℝ
  y : ℝ

namespace PointOverlay

/-- A geographic result { lat, lng }. -/
structure GeoPt where
  lat : ℝ
  lng : ℝ

/-- pair.gpsPoint of a matched pair. -/
structure PairGeo where
  lat : ℝ
  lng : ℝ

/-- pair.jsonPoint of a matched pair. -/
structure PairPixel where
  imageX : ℝ
  imageY : ℝ

/-- A calibration correspondence (part_008): a reference point's pixel
    position joined with its GPS ground-control point. -/
structure MatchedPair where
  gpsPoint : PairGeo
  jsonPoint : PairPixel

/-- PointOverlay.calculateDistance (part_008): haversine with Earth radius
    6371 km, in kilometers. -/
def calculateDistance (lat1 lng1 lat2 lng2 : ℝ) : ℝ :=
  let R : ℝ := 6371
  let dLat := (lat2 - lat1) * Real.pi / 180
  let dLng := (lng2 - lng1) * Real.pi / 180
  let a := Real.sin (dLat / 2) * Real.sin (dLat / 2) +
    Real.cos (lat1 * Real.pi / 180) * Real.cos (lat2 * Real.pi / 180) *
      Real.sin (dLng / 2) * Real.sin (dLng / 2)
  let c := 2 * atan2 (Real.sqrt a) (Real.sqrt (1 - a))
  R * c

/-- PointOverlay.convertImageToMapCoords (part_008 lines 502-531): the
    analytic center+scale pixel-to-geo transform.  Returns null only when
    no image is loaded; the dimensions themselves are not checked. -/
def convertImageToMapCoords (currentImage : Option ImageSize) (zoom : ℕ)
    (imageX imageY centerLat centerLng scale : ℝ) : Option GeoPt :=
  match currentImage with
  | none => none
  | some img =>
    let imageWidth := img.naturalWidth
    let imageHeight := img.naturalHeight
    let offsetX := imageX - imageWidth / 2
    let offsetY := imageY - imageHeight / 2
    let mpp := metersPerPixel centerLat zoom
    let scaledOffsetXMeters := offsetX * scale * mpp
    let scaledOffsetYMeters := offsetY * scale * mpp
    let earthRadius : ℝ := 6378137
    let latOffset := scaledOffsetYMeters / earthRadius * (180 / Real.pi)
    let lngOffset := scaledOffsetXMeters / (earthRadius * Real.cos (centerLat * Real.pi / 180)) *
      (180 / Real.pi)
    some { lat := centerLat - latOffset, lng := centerLng + lngOffset }

/-- PointOverlay.convertImageCoordsToMapCoords (part_008 lines 149-172):
    the bounds-relative pixel-to-geo interpolation.  Returns null only when
    the overlay or its image element is missing; the pixel dimensions are
    divided by without any zero check. -/
def convertImageCoordsToMapCoords (imageOverlayBounds : Option Bounds)
    (imageElement : Option Unit) (imageWidth imageHeight imageX imageY : ℝ) :
    Option (ℝ × ℝ) :=
  match imageOverlayBounds with
  | none => none
  | some bounds =>
    match imageElement with
    | none => none
    | some _ =>
      let normalizedX := imageX / imageWidth
      let normalizedY := imageY / imageHeight
      some (bounds.north - (bounds.north - bounds.south) * normalizedY,
            bounds.west + (bounds.east - bounds.west) * normalizedX)

/-- PointOverlay.calculateTotalError (part_008 lines 480-499): the sum of
    squared kilometric distances between each pair's predicted and actual
    geographic position. -/
def calculateTotalError (img : ImageSize) (zoom : ℕ) (matchedPairs : List MatchedPair)
    (centerLat centerLng scale : ℝ) : ℝ :=
  matchedPairs.foldl (fun totalError pair =>
    match convertImageToMapCoords (some img) zoom pair.jsonPoint.imageX pair.jsonPoint.imageY
        centerLat centerLng scale with
    | some predictedCoords =>
      let error := calculateDistance predictedCoords.lat predictedCoords.lng
        pair.gpsPoint.lat pair.gpsPoint.lng
      totalError + error * error
    | none => totalError) 0

/-- PointOverlay.calculateOptimalScale (part_008 lines 403-443): the
    least-squares kmPerPixel over pairs with positive pixel distance from
    the image center, converted to a scale and floored at 0.001. -/
def calculateOptimalScale (img : ImageSize) (zoom : ℕ) (matchedPairs : List MatchedPair)
    (centerLat centerLng : ℝ) : ℝ :=
  let nd := matchedPairs.foldl (fun (nd : ℝ × ℝ) pair =>
    let gpsDistance := calculateDistance centerLat centerLng pair.gpsPoint.lat pair.gpsPoint.lng
    let centerX := img.naturalWidth / 2
    let centerY := img.naturalHeight / 2
    let offsetX := pair.jsonPoint.imageX - centerX
    let offsetY := pair.jsonPoint.imageY - centerY
    let imagePixelDistance := Real.sqrt (offsetX * offsetX + offsetY * offsetY)
    if 0 < imagePixelDistance then
      let ratio := gpsDistance / imagePixelDistance
      (nd.1 + ratio * imagePixelDistance * imagePixelDistance,
       nd.2 + imagePixelDistance * imagePixelDistance)
    else nd) (0, 0)
  let kmPerPixel := if 0 < nd.2 then nd.1 / nd.2 else 0
  let mpp := metersPerPixel centerLat zoom
  let optimalScale := kmPerPixel / (mpp / 1000)
  max optimalScale 0.001

/-- PointOverlay.estimateInitialScale (part_008 lines 446-477): scale
    estimate from the first two pairs; 0 when fewer than two pairs or the
    two pixel positions coincide. -/
def estimateInitialScale (zoom : ℕ) (matchedPairs : List MatchedPair)
    (centerLat : ℝ) : ℝ :=
  match matchedPairs with
  | pair1 :: pair2 :: _ =>
    let gpsDistance := calculateDistance pair1.gpsPoint.lat pair1.gpsPoint.lng
      pair2.gpsPoint.lat pair2.gpsPoint.lng
    let imagePixelDistance := Real.sqrt
      ((pair2.jsonPoint.imageX - pair1.jsonPoint.imageX) ^ 2 +
       (pair2.jsonPoint.imageY - pair1.jsonPoint.imageY) ^ 2)
    if imagePixelDistance = 0 then 0
    else
      let kmPerPixel := gpsDistance / imagePixelDistance
      let mpp := metersPerPixel centerLat zoom
      let estimatedScale := kmPerPixel / (mpp / 1000)
      max estimatedScale 0.001
  | _ => 0

/-- The running best of the local search: (bestCenterLat, bestCenterLng,
    bestScale, bestError). -/
structure CalibState where
  bestCenterLat : ℝ
  bestCenterLng : ℝ
  bestScale : ℝ
  bestError : ℝ

/-- The value optimizeImageParameters returns on success. -/
structure CalibResult where
  centerLat : ℝ
  centerLng : ℝ
  scale : ℝ
  totalError : ℝ

/-- The body of the innermost loop of optimizeImageParameters (part_008
    lines 370-390): candidate center = running best center + delta, with
    its optimal scale; it replaces the best only when its optimal scale is
    positive and its error is strictly smaller. -/
def candidateStep (img : ImageSize) (zoom : ℕ) (matchedPairs : List MatchedPair)
    (st : CalibState) (delta : ℝ × ℝ) : CalibState :=
  let testLat := st.bestCenterLat + delta.1
  let testLng := st.bestCenterLng + delta.2
  let optimalScale := calculateOptimalScale img zoom matchedPairs testLat testLng
  if 0 < optimalScale then
    let error := calculateTotalError img zoom matchedPairs testLat testLng optimalScale
    if error < st.bestError then ⟨testLat, testLng, optimalScale, error⟩ else st
  else st

/-- One iteration of the local search (part_008 lines 367-391): nested
    loops over deltaLat and deltaLng in [-step, 0, step] with
    step = 0.0001 * 0.9 ^ iter. -/
def iterStep (img : ImageSize) (zoom : ℕ) (matchedPairs : List MatchedPair)
    (st : CalibState) (iter : ℕ) : CalibState :=
  let latStep := 0.0001 * 0.9 ^ iter
  let lngStep := 0.0001 * 0.9 ^ iter
  ([-latStep, 0, latStep]).foldl (fun st1 deltaLat =>
    ([-lngStep, 0, lngStep]).foldl (fun st2 deltaLng =>
      candidateStep img zoom matchedPairs st2 (deltaLat, deltaLng)) st1) st

/-- PointOverlay.optimizeImageParameters (part_008 lines 344-400).
    `currentScaleValue` stands for
    `this.imageOverlay ? this.imageOverlay.getCurrentScale() : 0.8`.
    The final `isFinite` checks always hold over the real-number model;
    the `bestScale <= 0` branch is kept. -/
def optimizeImageParameters (img : ImageSize) (currentScaleValue : ℝ) (zoom : ℕ)
    (matchedPairs : List MatchedPair) : Option CalibResult :=
  let n : ℝ := matchedPairs.length
  let bestCenterLat := (matchedPairs.foldl (fun sum pair => sum + pair.gpsPoint.lat) 0) / n
  let bestCenterLng := (matchedPairs.foldl (fun sum pair => sum + pair.gpsPoint.lng) 0) / n
  let initialScale := estimateInitialScale zoom matchedPairs bestCenterLat
  let bestScale := if 0 < initialScale then initialScale else currentScaleValue
  let bestError := calculateTotalError img zoom matchedPairs bestCenterLat bestCenterLng bestScale
  let final := (List.range 50).foldl (iterStep img zoom matchedPairs)
    ⟨bestCenterLat, bestCenterLng, bestScale, bestError⟩
  if final.bestScale ≤ 0 then none
  else some ⟨final.bestCenterLat, final.bestCenterLng, final.bestScale, final.bestError⟩

/-- The candidate update as the claim words it: compute the candidate's
    optimal scale and total squared error, and keep the candidate only
    when its error is strictly smaller than the best so far (first-found
    wins on ties); no positivity guard on the scale is mentioned. -/
def specCandidateStep (img : ImageSize) (zoom : ℕ) (matchedPairs : List MatchedPair)
    (st : CalibState) (delta : ℝ × ℝ) : CalibState :=
  let testLat := st.bestCenterLat + delta.1
  let testLng := st.bestCenterLng + delta.2
  let optimalScale := calculateOptimalScale img zoom matchedPairs testLat testLng
  let error := calculateTotalError img zoom matchedPairs testLat testLng optimalScale
  if error < st.bestError then ⟨testLat, testLng, optimalScale, error⟩ else st

/-- The 3x3 grid of center offsets { -step, 0, +step } x { -step, 0, +step }
    in the order the candidates are visited. -/
def specGrid (step : ℝ) : List (ℝ × ℝ) :=
  [(-step, -step), (-step, 0), (-step, step),
   (0, -step), (0, 0), (0, step),
   (step, -step), (step, 0), (step, step)]

/-- Iteration i of the local search as the claim words it: a 3x3 grid of
    candidate centers at the current center plus each offset, with
    step = 0.0001 * 0.9 ^ i. -/
def specIterStep (img : ImageSize) (zoom : ℕ) (matchedPairs : List MatchedPair)
    (st : CalibState) (iter : ℕ) : CalibState :=
  let step := 0.0001 * 0.9 ^ iter
  (specGrid step).foldl (specCandidateStep img zoom matchedPairs) st

/-- The calibration local search as the claim words it: exactly 50
    iterations of `specIterStep` from the centroid initialization. -/
def specLocalSearch (img : ImageSize) (currentScaleValue : ℝ) (zoom : ℕ)
    (matchedPairs : List MatchedPair) : Option CalibResult :=
  let n : ℝ := matchedPairs.length
  let bestCenterLat := (matchedPairs.foldl (fun sum pair => sum + pair.gpsPoint.lat) 0) / n
  let bestCenterLng := (matchedPairs.foldl (fun sum pair => sum + pair.gpsPoint.lng) 0) / n
  let initialScale := estimateInitialScale zoom matchedPairs bestCenterLat
  let bestScale := if 0 < initialScale then initialScale else currentScaleValue
  let bestError := calculateTotalError img zoom matchedPairs bestCenterLat bestCenterLng bestScale
  let final := (List.range 50).foldl (specIterStep img zoom matchedPairs)
    ⟨bestCenterLat, bestCenterLng, bestScale, bestError⟩
  if final.bestScale ≤ 0 then none
  else some ⟨final.bestCenterLat, final.bestCenterLng, final.bestScale, final.bestError⟩

end PointOverlay

namespace RouteEditor

/-- RouteEditor.convertMapToImageCoordinates (part_011 lines 370-400): the
    bounds-relative geo-to-pixel inverse.  Returns null when the overlay or
    its element is missing or a natural dimension is exactly zero; the
    bounds rectangle itself is not checked for degeneracy. -/
def convertMapToImageCoordinates (overlayBounds : Option Bounds)
    (imageElement : Option ImageSize) (lat lng : ℝ) : Option PixelPoint :=
  match overlayBounds with
  | none => none
  | some bounds =>
    match imageElement with
    | none => none
    | some img =>
      if img.naturalWidth = 0 ∨ img.naturalHeight = 0 then none
      else
        let relativeX := (lng - bounds.west) / (bounds.east - bounds.west)
        let relativeY := (bounds.north - lat) / (bounds.north - bounds.south)
        some { x := relativeX * img.naturalWidth, y := relativeY * img.naturalHeight }

end RouteEditor

namespace ImageOverlay

/-- The bounds computation of ImageOverlay.updateImageDisplay
    (image-overlay.js lines 382-472): the displayed rectangle is centered
    on the frame's center with half-extents derived from the image size,
    the scale and the Web-Mercator meters-per-pixel at the center
    latitude.  (The source's isFinite aborts cannot fire over the
    real-number model and its positivity aborts are side conditions of the
    theorems below.) -/
def updateImageDisplayBounds (centerLat centerLng scale : ℝ) (zoom : ℕ)
    (imageWidth imageHeight : ℝ) : Bounds :=
  let mpp := metersPerPixel centerLat zoom
  let scaledImageWidthMeters := imageWidth * scale * mpp
  let scaledImageHeightMeters := imageHeight * scale * mpp
  let earthRadius : ℝ := 6378137
  let latOffset := scaledImageHeightMeters / 2 / earthRadius * (180 / Real.pi)
  let lngOffset := scaledImageWidthMeters / 2 / (earthRadius * Real.cos (centerLat * Real.pi / 180)) *
    (180 / Real.pi)
  { north := centerLat + latOffset, south := centerLat - latOffset,
    east := centerLng + lngOffset, west := centerLng - lngOffset }

end ImageOverlay

namespace RouteDataManager

/-- RouteDataManager.initializeWaypointData (part_005 lines 99-125):
    fill in a missing type with "waypoint", a missing index with the array
    position + 1, and round the image coordinates.  (The JS mutates the
    route in place; the model returns the updated waypoint array.  The
    `Array.isArray` guard cannot fail in the model, and the
    `imageX !== undefined` rounding guards hold because the model keeps
    pixel coordinates present.) -/
def initializeWaypointData (routeData : Route) : List Waypoint :=
  let wayPoints := getWaypoints routeData
  wayPoints.mapIdx (fun arrayIndex point =>
    { point with
      type := if point.type = none then some "waypoint" else point.type,
      index := if point.index = none then some ((arrayIndex : ℤ) + 1) else point.index,
      imageX := jsRound point.imageX,
      imageY := jsRound point.imageY })

end RouteDataManager

/- Concrete instances used by counterexamples and witnesses.  All the
   distance-sensitive instances keep every coordinate nonzero, so the JS
   accessor reads them as defined numbers and the traces below match the
   program. -/

/-- A start position at lat 7, lng 5. -/
def cexStart : ℝ × ℝ := (7, 5)

/-- An end position at lat 9 on the same meridian lng 5. -/
def cexEnd : ℝ × ℝ := (9, 5)

/-- First input waypoint, at lat 5 on the meridian lng 5. -/
def cexW1 : CWaypoint :=
  { imageX := 10, imageY := 11, index := none, type := none, lat := 5, lng := 5 }

/-- Second input waypoint, at lat 8 on the meridian lng 5. -/
def cexW2 : CWaypoint :=
  { imageX := 12, imageY := 13, index := none, type := none, lat := 8, lng := 5 }

/-- An enriched waypoint (nonzero coordinates) used twice in one list:
    duplicate entries tie in distance, so the first-in-input-order
    tie-break rule is exercised. -/
def wDup : CWaypoint :=
  { imageX := 1, imageY := 2, index := none, type := none, lat := 3, lng := 5 }

/-- Start position for the C6 counterexample, at lat 3, lng 5. -/
def c6s : ℝ × ℝ := (3, 5)

/-- End position for the C6 counterexample, at lat 4, lng 5. -/
def c6e : ℝ × ℝ := (4, 5)

/-- A waypoint whose latitude is the falsy number 0: the JS accessor
    `point.lat || point.latitude` reads it as undefined, so every
    distance involving it is NaN. -/
def c6w0 : CWaypoint :=
  { imageX := 20, imageY := 21, index := none, type := none, lat := 0, lng := 5 }

/-- A waypoint at the exact start position (3, 5): its true haversine
    distance from the start is 0, the minimum possible. -/
def c6w1 : CWaypoint :=
  { imageX := 22, imageY := 23, index := none, type := none, lat := 3, lng := 5 }

/-- A raw route waypoint with no index assigned yet. -/
def wpOne : Waypoint :=
  { imageX := 5, imageY := 6, index := none, type := some "waypoint" }

/-- A route holding the single waypoint wpOne between points "A" and "B". -/
def oneWpRoute : Route :=
  { wayPoint := some [wpOne], wayPoints := none, points := none,
    startPoint := some "A", start := none, startPointId := none, routeInfoStartPoint := none,
    endPoint := some "B", end_ := none, endPointId := none, routeInfoEndPoint := none }

/-- A GPS store holding the named points "A" and "B". -/
def gpsAB : Option (List GpsMarker) :=
  some [{ id := "A", lat := 34, lng := 135 }, { id := "B", lat := 35, lng := 136 }]

/-- A conversion callback that always succeeds and returns the pixel
    coordinates unchanged. -/
def convId : ℝ → ℝ → Option (ℝ × ℝ) := fun x y => some (x, y)

/-- The optimizer's output for oneWpRoute under gpsAB and convId. -/
def oneWpOut : List CWaypoint :=
  [{ imageX := 5, imageY := 6, index := some 1, type := some "waypoint", lat := 5, lng := 6 }]

/-- A route between "A" and "B" whose waypoint array is present but empty. -/
def emptyWsRoute : Route :=
  { wayPoint := some [], wayPoints := none, points := none,
    startPoint := some "A", start := none, startPointId := none, routeInfoStartPoint := none,
    endPoint := some "B", end_ := none, endPointId := none, routeInfoEndPoint := none }

/-- A second route with an empty waypoint array, between "S" and "E". -/
def emptyWsRouteSE : Route :=
  { wayPoint := none, wayPoints := some [], points := none,
    startPoint := none, start := some "S", startPointId := none, routeInfoStartPoint := none,
    endPoint := none, end_ := some "E", endPointId := none, routeInfoEndPoint := none }

/-- A GPS store holding the named points "S" and "E". -/
def gpsSE : Option (List GpsMarker) :=
  some [{ id := "S", lat := 34.8, lng := 135.4 }, { id := "E", lat := 34.9, lng := 135.5 }]

end TrailMapper

section Theorems

namespace TrailMapper

theorem atan2_haversine_nonneg (t : ℝ) (h0 : 0 ≤ t) (h2 : t < Real.pi / 2) :
    atan2 (Real.sqrt (Real.sin t * Real.sin t)) (Real.sqrt (1 - Real.sin t * Real.sin t)) = t := by
  have hpi := Real.pi_pos
  have hsin : 0 ≤ Real.sin t :=
    Real.sin_nonneg_of_nonneg_of_le_pi h0 (by linarith)
  have hcos : 0 < Real.cos t := Real.cos_pos_of_mem_Ioo ⟨by linarith, h2⟩
  have h1 : Real.sqrt (Real.sin t * Real.sin t) = Real.sin t := Real.sqrt_mul_self hsin
  have hcc : 1 - Real.sin t * Real.sin t = Real.cos t * Real.cos t := by
    have hpyth := Real.sin_sq_add_cos_sq t
    nlinarith [hpyth]
  have h2' : Real.sqrt (1 - Real.sin t * Real.sin t) = Real.cos t := by
    rw [hcc]; exact Real.sqrt_mul_self (le_of_lt hcos)
  rw [h1, h2', atan2, if_pos hcos, ← Real.tan_eq_sin_div_cos]
  exact Real.arctan_tan (by linarith) h2

theorem atan2_haversine_abs (t : ℝ) (h : |t| < Real.pi / 2) :
    atan2 (Real.sqrt (Real.sin t * Real.sin t)) (Real.sqrt (1 - Real.sin t * Real.sin t)) = |t| := by
  rcases le_or_lt 0 t with ht | ht
  · rw [abs_of_nonneg ht]
    rw [abs_of_nonneg ht] at h
    exact atan2_haversine_nonneg t ht h
  · have hs : Real.sin t * Real.sin t = Real.sin (-t) * Real.sin (-t) := by
      rw [Real.sin_neg]; ring
    rw [hs, abs_of_neg ht]
    rw [abs_of_neg ht] at h
    exact atan2_haversine_nonneg (-t) (by linarith) h

/-- On a common meridian the haversine of route-optimizer.js is exactly
    Earth-radius times the latitude difference in radians. -/
theorem calculateDistance_colinear (la1 la2 lng : ℝ) (h : |la2 - la1| < 180) :
    RouteOptimizer.calculateDistance (la1, lng) (la2, lng) =
      6371000 * (Real.pi / 180) * |la2 - la1| := by
  have hpi := Real.pi_pos
  simp only [RouteOptimizer.calculateDistance, sub_self, zero_mul, zero_div, Real.sin_zero,
    mul_zero, add_zero]
  have ht : (la2 - la1) * Real.pi / 180 / 2 = (la2 - la1) * (Real.pi / 360) := by ring
  have habs : |(la2 - la1) * (Real.pi / 360)| = |la2 - la1| * (Real.pi / 360) := by
    rw [abs_mul]
    congr 1
    exact abs_of_pos (by positivity)
  have h180 : (180 : ℝ) * (Real.pi / 360) = Real.pi / 2 := by ring
  have hlt : |(la2 - la1) * (Real.pi / 360)| < Real.pi / 2 := by
    rw [habs, ← h180]
    exact mul_lt_mul_of_pos_right h (by positivity)
  rw [ht, atan2_haversine_abs _ hlt, habs]
  ring

theorem jsPos_of_ne (w : CWaypoint) (hlat : w.lat ≠ 0) (hlng : w.lng ≠ 0) :
    w.jsPos = some w.coords := by
  simp [CWaypoint.jsPos, CWaypoint.latAcc, CWaypoint.lngAcc, hlat, hlng, CWaypoint.coords]

theorem jsLt_some_some (x y : ℝ) : jsLt (some x) (some y) = decide (x < y) := rfl

namespace RouteOptimizer

theorem optimizeGo_nil (currentPoint : Option (ℝ × ℝ)) : optimizeGo currentPoint [] = [] := by
  rw [optimizeGo]

theorem optimizeGo_cons (currentPoint : Option (ℝ × ℝ)) (r0 : CWaypoint)
    (rest : List CWaypoint) :
    optimizeGo currentPoint (r0 :: rest) =
      ((r0 :: rest).getD (nearestIdxAux currentPoint rest 1 0
          (calculateDistanceJs currentPoint r0.jsPos)).1 default) ::
        optimizeGo
          (((r0 :: rest).getD (nearestIdxAux currentPoint rest 1 0
              (calculateDistanceJs currentPoint r0.jsPos)).1 default).jsPos)
          ((r0 :: rest).eraseIdx (nearestIdxAux currentPoint rest 1 0
              (calculateDistanceJs currentPoint r0.jsPos)).1) := by
  rw [optimizeGo]

theorem nearestIdxAux_spec (currentPoint : ℝ × ℝ) (remaining : List CWaypoint) :
    ∀ (tail : List CWaypoint) (i bIdx : ℕ),
      (∀ w ∈ tail, w.lat ≠ 0 ∧ w.lng ≠ 0) →
      (∀ k, tail.getD k default = remaining.getD (i + k) default) →
      tail.length + i = remaining.length →
      bIdx < remaining.length → bIdx < i →
      (∀ j, j < i → distAt currentPoint remaining bIdx ≤ distAt currentPoint remaining j) →
      (∀ j, j < bIdx → distAt currentPoint remaining bIdx < distAt currentPoint remaining j) →
      IsFirstMin currentPoint remaining
        (nearestIdxAux (some currentPoint) tail i bIdx
          (some (distAt currentPoint remaining bIdx))).1 := by
  intro tail
  induction tail with
  | nil =>
    intro i bIdx hnz hget hlen hb hbi hmin hstrict
    simp only [nearestIdxAux]
    refine ⟨hb, ?_, hstrict⟩
    intro j hj
    apply hmin
    simp only [List.length_nil] at hlen
    omega
  | cons w rest ih =>
    intro i bIdx hnz hget hlen hb hbi hmin hstrict
    have hwnz := hnz w (List.mem_cons_self w rest)
    have hwc : w.coords = ((remaining.getD i default).coords) := by
      have h0 := hget 0
      simp only [List.getD_cons_zero, Nat.add_zero] at h0
      rw [h0]
    have hi : i < remaining.length := by
      simp only [List.length_cons] at hlen
      omega
    have hdist : calculateDistanceJs (some currentPoint) w.jsPos =
        some (distAt currentPoint remaining i) := by
      rw [jsPos_of_ne w hwnz.1 hwnz.2, hwc]
      rfl
    simp only [nearestIdxAux, hdist, jsLt_some_some, decide_eq_true_eq]
    by_cases hlt : distAt currentPoint remaining i < distAt currentPoint remaining bIdx
    · rw [if_pos hlt]
      apply ih (i + 1) i
      · intro w' hw'
        exact hnz w' (List.mem_cons_of_mem w hw')
      · intro k
        have hk := hget (k + 1)
        simp only [List.getD_cons_succ] at hk
        rw [hk]
        congr 1
        omega
      · simp only [List.length_cons] at hlen
        omega
      · exact hi
      · omega
      · intro j hj
        rcases Nat.lt_or_ge j i with hji | hji
        · exact le_of_lt (lt_of_lt_of_le hlt (hmin j hji))
        · have : j = i := by omega
          rw [this]
      · intro j hj
        exact lt_of_lt_of_le hlt (hmin j (by omega))
    · rw [if_neg hlt]
      apply ih (i + 1) bIdx
      · intro w' hw'
        exact hnz w' (List.mem_cons_of_mem w hw')
      · intro k
        have hk := hget (k + 1)
        simp only [List.getD_cons_succ] at hk
        rw [hk]
        congr 1
        omega
      · simp only [List.length_cons] at hlen
        omega
      · exact hb
      · omega
      · intro j hj
        rcases Nat.lt_or_ge j i with hji | hji
        · exact hmin j hji
        · have : j = i := by omega
          rw [this]
          exact le_of_not_lt hlt
      · exact hstrict

theorem nearestIdx_isFirstMin (currentPoint : ℝ × ℝ) (r0 : CWaypoint) (rest : List CWaypoint)
    (hnz : ∀ w ∈ r0 :: rest, w.lat ≠ 0 ∧ w.lng ≠ 0) :
    IsFirstMin currentPoint (r0 :: rest)
      (nearestIdxAux (some currentPoint) rest 1 0
        (calculateDistanceJs (some currentPoint) r0.jsPos)).1 := by
  have h0nz := hnz r0 (List.mem_cons_self r0 rest)
  have h0 : calculateDistanceJs (some currentPoint) r0.jsPos =
      some (distAt currentPoint (r0 :: rest) 0) := by
    rw [jsPos_of_ne r0 h0nz.1 h0nz.2]
    rfl
  rw [h0]
  apply nearestIdxAux_spec currentPoint (r0 :: rest) rest 1 0
  · intro w hw
    exact hnz w (List.mem_cons_of_mem r0 hw)
  · intro k
    simp [List.getD_cons_succ, Nat.add_comm]
  · simp [Nat.add_comm]
  · simp
  · omega
  · intro j hj
    have : j = 0 := by omega
    rw [this]
  · intro j hj
    omega

theorem optimizeGo_greedySpec :
    ∀ (n : ℕ) (currentPoint : ℝ × ℝ) (remaining : List CWaypoint), remaining.length ≤ n →
      (∀ w ∈ remaining, w.lat ≠ 0 ∧ w.lng ≠ 0) →
      GreedySpec currentPoint remaining (optimizeGo (some currentPoint) remaining) := by
  intro n
  induction n with
  | zero =>
    intro currentPoint remaining hlen hnz
    have : remaining = [] := List.length_eq_zero.mp (by omega)
    rw [this, optimizeGo_nil]
    exact GreedySpec.nil currentPoint
  | succ n ih =>
    intro currentPoint remaining hlen hnz
    match remaining with
    | [] =>
      rw [optimizeGo_nil]
      exact GreedySpec.nil currentPoint
    | r0 :: rest =>
      rw [optimizeGo_cons]
      have hfm := nearestIdx_isFirstMin currentPoint r0 rest hnz
      have hmem : ((r0 :: rest).getD (nearestIdxAux (some currentPoint) rest 1 0
          (calculateDistanceJs (some currentPoint) r0.jsPos)).1 default) ∈ (r0 :: rest) := by
        rw [List.getD_eq_getElem _ _ hfm.1]
        exact List.getElem_mem hfm.1
      have hch := hnz _ hmem
      rw [jsPos_of_ne _ hch.1 hch.2]
      refine GreedySpec.cons currentPoint (r0 :: rest) _ _ hfm.1 hfm.2.1 hfm.2.2 ?_
      apply ih
      · have := length_eraseIdx_lt hfm.1
        simp only [List.length_cons] at this hlen ⊢
        omega
      · intro w hw
        exact hnz w (List.eraseIdx_subset _ _ hw)

theorem greedySpec_unique {currentPoint : ℝ × ℝ} {remaining o1 : List CWaypoint}
    (h1 : GreedySpec currentPoint remaining o1) :
    ∀ o2, GreedySpec currentPoint remaining o2 → o1 = o2 := by
  induction h1 with
  | nil cur =>
    intro o2 h2
    cases h2 with
    | nil => rfl
    | cons _ _ _ i hi _ _ _ => simp at hi
  | cons cur rem out i hi hmin hstrict hrec ih =>
    intro o2 h2
    cases h2 with
    | nil => simp at hi
    | cons _ _ out2 i2 hi2 hmin2 hstrict2 hrec2 =>
      have hieq : i = i2 := by
        by_contra hne
        rcases Nat.lt_or_ge i i2 with hlt | hge
        · exact absurd (hmin i2 hi2) (not_le.mpr (hstrict2 i hlt))
        · have hlt2 : i2 < i := by omega
          exact absurd (hmin2 i hi) (not_le.mpr (hstrict i2 hlt2))
      subst hieq
      rw [ih out2 hrec2]

theorem getD_cons_eraseIdx_perm :
    ∀ (l : List CWaypoint) (i : ℕ), i < l.length →
      ((l.getD i default) :: l.eraseIdx i).Perm l := by
  intro l
  induction l with
  | nil => intro i hi; simp at hi
  | cons a t ih =>
    intro i hi
    cases i with
    | zero => simp
    | succ n =>
      simp only [List.getD_cons_succ, List.eraseIdx_cons_succ]
      have h1 : ((t.getD n default) :: a :: t.eraseIdx n).Perm
          (a :: (t.getD n default) :: t.eraseIdx n) := List.Perm.swap a (t.getD n default) _
      refine h1.trans (List.Perm.cons a ?_)
      apply ih
      simp only [List.length_cons] at hi
      omega

theorem nearestIdx_lt (currentPoint : Option (ℝ × ℝ)) (r0 : CWaypoint)
    (rest : List CWaypoint) :
    (nearestIdxAux currentPoint rest 1 0
      (calculateDistanceJs currentPoint r0.jsPos)).1 < (r0 :: rest).length := by
  apply nearestIdxAux_fst_lt
  · simp
  · simp only [List.length_cons]
    omega

theorem optimizeGo_perm :
    ∀ (n : ℕ) (currentPoint : Option (ℝ × ℝ)) (remaining : List CWaypoint),
      remaining.length ≤ n → (optimizeGo currentPoint remaining).Perm remaining := by
  intro n
  induction n with
  | zero =>
    intro currentPoint remaining hlen
    have : remaining = [] := List.length_eq_zero.mp (by omega)
    rw [this, optimizeGo_nil]
  | succ n ih =>
    intro currentPoint remaining hlen
    match remaining with
    | [] => rw [optimizeGo_nil]
    | r0 :: rest =>
      rw [optimizeGo_cons]
      have hlt := nearestIdx_lt currentPoint r0 rest
      have hperm : (optimizeGo
          (((r0 :: rest).getD
            (nearestIdxAux currentPoint rest 1 0
              (calculateDistanceJs currentPoint r0.jsPos)).1 default).jsPos)
          ((r0 :: rest).eraseIdx
            (nearestIdxAux currentPoint rest 1 0
              (calculateDistanceJs currentPoint r0.jsPos)).1)).Perm
          ((r0 :: rest).eraseIdx
            (nearestIdxAux currentPoint rest 1 0
              (calculateDistanceJs currentPoint r0.jsPos)).1) := by
        apply ih
        have := length_eraseIdx_lt hlt
        simp only [List.length_cons] at this hlen ⊢
        omega
      exact (List.Perm.cons _ hperm).trans (getD_cons_eraseIdx_perm _ _ hlt)

theorem optimizeWaypointOrder_perm (s e : ℝ × ℝ) (ws : List CWaypoint) :
    (optimizeWaypointOrder s e ws).Perm ws := by
  rw [optimizeWaypointOrder]
  by_cases h : ws.length ≤ 1
  · rw [if_pos h]
  · rw [if_neg h]
    exact optimizeGo_perm ws.length (some s) ws le_rfl

theorem calculateTotalDistance_pair (s e : ℝ × ℝ) (a b : CWaypoint)
    (ha : a.jsPos = some a.coords) (hb : b.jsPos = some b.coords) :
    calculateTotalDistance s e [a, b] =
      some (calculateDistance s a.coords + calculateDistance a.coords b.coords +
        calculateDistance b.coords e) := by
  simp [calculateTotalDistance, ha, hb, calculateDistanceJs, jsAdd]

end RouteOptimizer

theorem cexW1_jsPos : cexW1.jsPos = some cexW1.coords :=
  jsPos_of_ne cexW1 (by norm_num [cexW1]) (by norm_num [cexW1])

theorem cexW2_jsPos : cexW2.jsPos = some cexW2.coords :=
  jsPos_of_ne cexW2 (by norm_num [cexW2]) (by norm_num [cexW2])

theorem cex_optimize_eval :
    RouteOptimizer.optimizeWaypointOrder cexStart cexEnd [cexW1, cexW2] = [cexW2, cexW1] := by
  have hpi := Real.pi_pos
  have d1 : RouteOptimizer.calculateDistance cexStart cexW1.coords =
      6371000 * (Real.pi / 180) * 2 := by
    show RouteOptimizer.calculateDistance (7, 5) ((5 : ℝ), (5 : ℝ)) = _
    rw [calculateDistance_colinear 7 5 5 (by norm_num)]
    norm_num
  have d2 : RouteOptimizer.calculateDistance cexStart cexW2.coords =
      6371000 * (Real.pi / 180) * 1 := by
    show RouteOptimizer.calculateDistance (7, 5) ((8 : ℝ), (5 : ℝ)) = _
    rw [calculateDistance_colinear 7 8 5 (by norm_num)]
    norm_num
  have hlt : RouteOptimizer.calculateDistance cexStart cexW2.coords <
      RouteOptimizer.calculateDistance cexStart cexW1.coords := by
    rw [d1, d2]
    nlinarith [hpi]
  rw [RouteOptimizer.optimizeWaypointOrder, if_neg (by norm_num)]
  rw [RouteOptimizer.optimizeGo_cons]
  have scan_eval : RouteOptimizer.nearestIdxAux (some cexStart) [cexW2] 1 0
      (RouteOptimizer.calculateDistanceJs (some cexStart) cexW1.jsPos) =
      (1, some (RouteOptimizer.calculateDistance cexStart cexW2.coords)) := by
    rw [cexW1_jsPos]
    simp only [RouteOptimizer.nearestIdxAux, cexW2_jsPos, RouteOptimizer.calculateDistanceJs,
      jsLt_some_some, decide_eq_true_eq]
    rw [if_pos hlt]
  rw [scan_eval]
  simp only [List.getD_cons_succ, List.getD_cons_zero, List.eraseIdx_cons_succ,
    List.eraseIdx_cons_zero]
  rw [RouteOptimizer.optimizeGo_cons]
  simp only [RouteOptimizer.nearestIdxAux, List.getD_cons_zero, List.eraseIdx_cons_zero,
    RouteOptimizer.optimizeGo_nil]

/-- C1: counterexample.  For start (7,5), end (9,5) and input waypoints at
    latitudes 5 and 8 on the meridian lng 5 — every coordinate nonzero, so
    the JS accessors read all of them as defined numbers — the greedy
    optimizer picks the nearer waypoint (lat 8) first and then backtracks:
    the optimized order's total is 8 units against the input order's 6
    units, refuting totalDistance(optimized) ≤ totalDistance(input). -/
theorem claim_C1_counterexample :
    RouteOptimizer.calculateTotalDistance cexStart cexEnd
        (RouteOptimizer.optimizeWaypointOrder cexStart cexEnd [cexW1, cexW2]) =
      some (6371000 * (Real.pi / 180) * 8) ∧
    RouteOptimizer.calculateTotalDistance cexStart cexEnd [cexW1, cexW2] =
      some (6371000 * (Real.pi / 180) * 6) ∧
    (6371000 * (Real.pi / 180) * 6 : ℝ) < 6371000 * (Real.pi / 180) * 8 := by
  have hpi := Real.pi_pos
  have e1 : RouteOptimizer.calculateDistance cexStart cexW1.coords =
      6371000 * (Real.pi / 180) * 2 := by
    show RouteOptimizer.calculateDistance (7, 5) ((5 : ℝ), (5 : ℝ)) = _
    rw [calculateDistance_colinear 7 5 5 (by norm_num)]
    norm_num
  have e2 : RouteOptimizer.calculateDistance cexStart cexW2.coords =
      6371000 * (Real.pi / 180) * 1 := by
    show RouteOptimizer.calculateDistance (7, 5) ((8 : ℝ), (5 : ℝ)) = _
    rw [calculateDistance_colinear 7 8 5 (by norm_num)]
    norm_num
  have e3 : RouteOptimizer.calculateDistance cexW1.coords cexW2.coords =
      6371000 * (Real.pi / 180) * 3 := by
    show RouteOptimizer.calculateDistance ((5 : ℝ), (5 : ℝ)) ((8 : ℝ), (5 : ℝ)) = _
    rw [calculateDistance_colinear 5 8 5 (by norm_num)]
    norm_num
  have e4 : RouteOptimizer.calculateDistance cexW2.coords cexW1.coords =
      6371000 * (Real.pi / 180) * 3 := by
    show RouteOptimizer.calculateDistance ((8 : ℝ), (5 : ℝ)) ((5 : ℝ), (5 : ℝ)) = _
    rw [calculateDistance_colinear 8 5 5 (by norm_num)]
    norm_num
  have e5 : RouteOptimizer.calculateDistance cexW2.coords cexEnd =
      6371000 * (Real.pi / 180) * 1 := by
    show RouteOptimizer.calculateDistance ((8 : ℝ), (5 : ℝ)) (9, 5) = _
    rw [calculateDistance_colinear 8 9 5 (by norm_num)]
    norm_num
  have e6 : RouteOptimizer.calculateDistance cexW1.coords cexEnd =
      6371000 * (Real.pi / 180) * 4 := by
    show RouteOptimizer.calculateDistance ((5 : ℝ), (5 : ℝ)) (9, 5) = _
    rw [calculateDistance_colinear 5 9 5 (by norm_num)]
    norm_num
  refine ⟨?_, ?_, by nlinarith [hpi]⟩
  · rw [cex_optimize_eval,
      RouteOptimizer.calculateTotalDistance_pair cexStart cexEnd cexW2 cexW1
        cexW2_jsPos cexW1_jsPos, e2, e4, e6, Option.some.injEq]
    ring
  · rw [RouteOptimizer.calculateTotalDistance_pair cexStart cexEnd cexW1 cexW2
      cexW1_jsPos cexW2_jsPos, e1, e3, e5, Option.some.injEq]
    ring

/-- C1 (amended): the route optimizer's output order never has a larger
    total tour distance than the input order when there are at most one
    waypoint (the order is then returned unchanged); for two or more
    waypoints the greedy heuristic can strictly increase the total tour
    distance, as the counterexample shows. -/
theorem claim_C1_amended (s e : ℝ × ℝ) (ws : List CWaypoint) (h : ws.length ≤ 1) :
    RouteOptimizer.calculateTotalDistance s e (RouteOptimizer.optimizeWaypointOrder s e ws) =
      RouteOptimizer.calculateTotalDistance s e ws := by
  rw [RouteOptimizer.optimizeWaypointOrder, if_pos h]

/-- C1 (amended) witness: the amended claim applied to the singleton
    waypoint list. -/
theorem claim_C1_amended_witness :
    ([cexW1].length ≤ 1) ∧
      RouteOptimizer.calculateTotalDistance cexStart cexEnd
          (RouteOptimizer.optimizeWaypointOrder cexStart cexEnd [cexW1]) =
        RouteOptimizer.calculateTotalDistance cexStart cexEnd [cexW1] :=
  ⟨by simp, claim_C1_amended cexStart cexEnd [cexW1] (by simp)⟩

/-- C6: counterexample.  For start (3,5), end (4,5) and input waypoints
    [c6w0 at (0,5), c6w1 at (3,5)], the waypoint c6w1 sits exactly at the
    start (haversine distance 0) while c6w0 is strictly farther; but
    c6w0's latitude 0 is falsy, so the accessor `point.lat ||
    point.latitude` reads it as undefined, every distance against it is
    NaN, and the scan — whose JS `<` is false on NaN — keeps index 0.  The
    program therefore returns [c6w0, c6w1], which does not satisfy the
    minimum-haversine-distance greedy recurrence. -/
theorem claim_C6_counterexample :
    RouteOptimizer.optimizeWaypointOrder c6s c6e [c6w0, c6w1] = [c6w0, c6w1] ∧
    ¬ RouteOptimizer.GreedySpec c6s [c6w0, c6w1] [c6w0, c6w1] := by
  have hpi := Real.pi_pos
  have h0 : c6w0.jsPos = none := by
    simp [CWaypoint.jsPos, CWaypoint.latAcc, c6w0]
  have h1 : c6w1.jsPos = some c6w1.coords :=
    jsPos_of_ne c6w1 (by norm_num [c6w1]) (by norm_num [c6w1])
  have hd0 : RouteOptimizer.distAt c6s [c6w0, c6w1] 0 = 6371000 * (Real.pi / 180) * 3 := by
    show RouteOptimizer.calculateDistance (3, 5) ((0 : ℝ), (5 : ℝ)) = _
    rw [calculateDistance_colinear 3 0 5 (by norm_num)]
    norm_num
  have hd1 : RouteOptimizer.distAt c6s [c6w0, c6w1] 1 = 0 := by
    show RouteOptimizer.calculateDistance (3, 5) ((3 : ℝ), (5 : ℝ)) = _
    rw [calculateDistance_colinear 3 3 5 (by norm_num)]
    norm_num
  constructor
  · rw [RouteOptimizer.optimizeWaypointOrder, if_neg (by norm_num)]
    rw [RouteOptimizer.optimizeGo_cons]
    have scan0 : RouteOptimizer.nearestIdxAux (some c6s) [c6w1] 1 0
        (RouteOptimizer.calculateDistanceJs (some c6s) c6w0.jsPos) = (0, none) := by
      rw [h0]
      simp [RouteOptimizer.nearestIdxAux, RouteOptimizer.calculateDistanceJs, h1, jsLt]
    rw [scan0]
    simp only [List.getD_cons_zero, List.eraseIdx_cons_zero]
    rw [RouteOptimizer.optimizeGo_cons]
    simp only [RouteOptimizer.nearestIdxAux, List.getD_cons_zero, List.eraseIdx_cons_zero,
      RouteOptimizer.optimizeGo_nil]
  · intro h
    have g : RouteOptimizer.GreedySpec c6s [c6w0, c6w1] [c6w1, c6w0] := by
      have inner : RouteOptimizer.GreedySpec c6w1.coords [c6w0] [c6w0] := by
        refine RouteOptimizer.GreedySpec.cons c6w1.coords [c6w0] [] 0 (by norm_num) ?_ ?_ ?_
        · intro j hj
          have : j = 0 := by
            simp only [List.length_cons, List.length_nil] at hj
            omega
          rw [this]
        · intro j hj
          omega
        · exact RouteOptimizer.GreedySpec.nil c6w0.coords
      refine RouteOptimizer.GreedySpec.cons c6s [c6w0, c6w1] [c6w0] 1 (by norm_num) ?_ ?_
        inner
      · intro j hj
        simp only [List.length_cons, List.length_nil] at hj
        interval_cases j
        · rw [hd0, hd1]
          positivity
        · exact le_refl _
      · intro j hj
        have : j = 0 := by omega
        rw [this, hd0, hd1]
        positivity
    have heq : ([c6w0, c6w1] : List CWaypoint) = [c6w1, c6w0] :=
      RouteOptimizer.greedySpec_unique h [c6w1, c6w0] g
    have hlat : c6w0.lat = c6w1.lat := by
      rw [List.cons.injEq] at heq
      rw [heq.1]
    rw [show c6w0.lat = (0 : ℝ) from rfl, show c6w1.lat = (3 : ℝ) from rfl] at hlat
    norm_num at hlat

/-- C6 (amended): for every start, end and waypoint list with at least two
    entries all of whose coordinates are nonzero — so that every JS
    accessor read `lat || latitude` / `lng || longitude` is defined — the
    optimizer's output satisfies the greedy nearest-neighbor recurrence of
    the spec (repeatedly append the remaining waypoint with minimum
    haversine distance to the current position, the earliest input
    position winning ties), it is the unique such list (so the procedure
    is deterministic there), and every returned waypoint comes from the
    input list (the end point, which the recurrence never consults, is
    not added).  A waypoint with a falsy zero coordinate voids the
    minimum-distance property, as the counterexample shows. -/
theorem claim_C6_amended (s e : ℝ × ℝ) (ws : List CWaypoint) (h : 2 ≤ ws.length)
    (hnz : ∀ w ∈ ws, w.lat ≠ 0 ∧ w.lng ≠ 0) :
    RouteOptimizer.GreedySpec s ws (RouteOptimizer.optimizeWaypointOrder s e ws) ∧
    (∀ o, RouteOptimizer.GreedySpec s ws o → o = RouteOptimizer.optimizeWaypointOrder s e ws) ∧
    (∀ w ∈ RouteOptimizer.optimizeWaypointOrder s e ws, w ∈ ws) := by
  have hgo : RouteOptimizer.optimizeWaypointOrder s e ws =
      RouteOptimizer.optimizeGo (some s) ws := by
    rw [RouteOptimizer.optimizeWaypointOrder, if_neg (by omega)]
  rw [hgo]
  refine ⟨RouteOptimizer.optimizeGo_greedySpec ws.length s ws le_rfl hnz, ?_, ?_⟩
  · intro o ho
    exact RouteOptimizer.greedySpec_unique ho _
      (RouteOptimizer.optimizeGo_greedySpec ws.length s ws le_rfl hnz)
  · intro w hw
    exact (RouteOptimizer.optimizeGo_perm ws.length (some s) ws le_rfl).subset hw

/-- C6 (amended) witness: the amended theorem applied to a two-element
    waypoint list with nonzero coordinates. -/
theorem claim_C6_amended_witness :
    (2 ≤ ([wDup, wDup] : List CWaypoint).length ∧
      (∀ w ∈ ([wDup, wDup] : List CWaypoint), w.lat ≠ 0 ∧ w.lng ≠ 0)) ∧
    (RouteOptimizer.GreedySpec cexStart [wDup, wDup]
        (RouteOptimizer.optimizeWaypointOrder cexStart cexEnd [wDup, wDup]) ∧
      (∀ o, RouteOptimizer.GreedySpec cexStart [wDup, wDup] o →
        o = RouteOptimizer.optimizeWaypointOrder cexStart cexEnd [wDup, wDup]) ∧
      (∀ w ∈ RouteOptimizer.optimizeWaypointOrder cexStart cexEnd [wDup, wDup],
        w ∈ ([wDup, wDup] : List CWaypoint))) :=
  ⟨⟨by simp, by norm_num [wDup]⟩,
    claim_C6_amended cexStart cexEnd [wDup, wDup] (by simp) (by norm_num [wDup])⟩

/-- C10: whenever optimizeRoute succeeds, its returned list is the
    index-reannotation of a permutation of exactly those input waypoints
    whose coordinate conversion succeeded (failed conversions are silently
    dropped, nothing is duplicated or invented). -/
theorem claim_C10_permutation (route : Route) (gpsData : Option (List GpsMarker))
    (conv : ℝ → ℝ → Option (ℝ × ℝ)) (out : List CWaypoint)
    (h : RouteOptimizer.optimizeRoute (some route) gpsData conv = Except.ok out) :
    ∃ mid : List CWaypoint,
      mid.Perm (RouteOptimizer.waypointCoords conv (getWaypoints route)) ∧
      out = mid.mapIdx (fun index waypoint =>
        { waypoint with index := some ((index : ℤ) + 1) }) := by
  simp only [RouteOptimizer.optimizeRoute] at h
  split at h
  · exact absurd h (by simp)
  · split at h
    · exact absurd h (by simp)
    · split at h
      · exact absurd h (by simp)
      · rw [Except.ok.injEq] at h
        exact ⟨_, RouteOptimizer.optimizeWaypointOrder_perm _ _ _, h.symm⟩

theorem oneWpRoute_eval :
    RouteOptimizer.optimizeRoute (some oneWpRoute) gpsAB convId = Except.ok oneWpOut := by
  rfl

/-- C10 witness: the theorem applied to a concrete successful run on a
    one-waypoint route. -/
theorem claim_C10_permutation_witness :
    RouteOptimizer.optimizeRoute (some oneWpRoute) gpsAB convId = Except.ok oneWpOut ∧
    (∃ mid : List CWaypoint,
      mid.Perm (RouteOptimizer.waypointCoords convId (getWaypoints oneWpRoute)) ∧
      oneWpOut = mid.mapIdx (fun index waypoint =>
        { waypoint with index := some ((index : ℤ) + 1) })) :=
  ⟨oneWpRoute_eval, claim_C10_permutation oneWpRoute gpsAB convId oneWpOut oneWpRoute_eval⟩

/-- C2: counterexample.  Invoking the route optimizer on a selected route
    whose waypoint array is empty does not return a failure value: it
    throws (modelled as `Except.error`) the wrapped message of the
    try/catch re-raise, refuting the claim that no failure is raised as a
    thrown exception. -/
theorem claim_C2_counterexample :
    RouteOptimizer.optimizeRoute (some emptyWsRoute) gpsAB convId =
      Except.error ("ルートの最適化中にエラーが発生しました: " ++ "最適化する中間点がありません。") := by
  rfl

/-- C2 (amended): the calibration optimizer reports failure as a value —
    optimizeImageParameters has no throw path in its model, it returns
    either `none` or a result whose fitted scale is positive (the
    non-positive-fit failure is turned into the `none` value; the
    non-finite checks lie outside the real-number model).  The
    route-optimization failures, by contrast, are thrown as exceptions:
    a missing route throws directly, and an unresolved start or end point
    or an empty waypoint set is thrown inside the try block and re-raised
    by the catch clause with a prefixed message; none of them is
    value-returned. -/
theorem claim_C2_amended (route : Route) (gpsData : Option (List GpsMarker))
    (conv : ℝ → ℝ → Option (ℝ × ℝ)) :
    (RouteOptimizer.optimizeRoute none gpsData conv =
      Except.error "ルートを選択してください。") ∧
    (RouteOptimizer.getGpsPointByName gpsData (getRoutePoints route).1 = none ∨
      RouteOptimizer.getGpsPointByName gpsData (getRoutePoints route).2 = none →
      RouteOptimizer.optimizeRoute (some route) gpsData conv =
        Except.error
          ("ルートの最適化中にエラーが発生しました: " ++ "開始または終了ポイントが見つかりません。")) ∧
    ((RouteOptimizer.getGpsPointByName gpsData (getRoutePoints route).1).isSome →
      (RouteOptimizer.getGpsPointByName gpsData (getRoutePoints route).2).isSome →
      (getWaypoints route).length = 0 →
      RouteOptimizer.optimizeRoute (some route) gpsData conv =
        Except.error
          ("ルートの最適化中にエラーが発生しました: " ++ "最適化する中間点がありません。")) ∧
    (∀ (img : ImageSize) (currentScaleValue : ℝ) (zoom : ℕ)
      (pairs : List PointOverlay.MatchedPair),
      (∀ r, PointOverlay.optimizeImageParameters img currentScaleValue zoom pairs = some r →
        0 < r.scale) ∧
      (PointOverlay.optimizeImageParameters img currentScaleValue zoom pairs = none ∨
        ∃ r, PointOverlay.optimizeImageParameters img currentScaleValue zoom pairs = some r)) := by
  refine ⟨rfl, ?_, ?_, ?_⟩
  · intro hmiss
    rcases hmiss with hs | he
    · simp only [RouteOptimizer.optimizeRoute, hs]
    · cases hsp : RouteOptimizer.getGpsPointByName gpsData (getRoutePoints route).1 with
      | none => simp only [RouteOptimizer.optimizeRoute, hsp]
      | some sp => simp only [RouteOptimizer.optimizeRoute, hsp, he]
  · intro hstart hend hempty
    rcases Option.isSome_iff_exists.mp hstart with ⟨sp, hsp⟩
    rcases Option.isSome_iff_exists.mp hend with ⟨ep, hep⟩
    simp only [RouteOptimizer.optimizeRoute, hsp, hep, hempty, if_pos]
  · intro img currentScaleValue zoom pairs
    constructor
    · intro r hr
      simp only [PointOverlay.optimizeImageParameters] at hr
      split at hr
      · split at hr
        · exact absurd hr (by simp)
        · rw [Option.some.injEq] at hr
          rw [← hr]
          exact lt_of_not_le (by assumption)
      · split at hr
        · exact absurd hr (by simp)
        · rw [Option.some.injEq] at hr
          rw [← hr]
          exact lt_of_not_le (by assumption)
    · cases hv : PointOverlay.optimizeImageParameters img currentScaleValue zoom pairs with
      | none => exact Or.inl rfl
      | some r => exact Or.inr ⟨r, rfl⟩

/-- C2 (amended) witness: the amended claim applied to concrete inputs —
    a missing route, a route whose start point "S" is not in the gpsAB
    store, a route with resolvable endpoints and an empty waypoint array,
    and a concrete calibration run. -/
theorem claim_C2_amended_witness :
    (RouteOptimizer.optimizeRoute none gpsSE convId =
      Except.error "ルートを選択してください。") ∧
    (RouteOptimizer.getGpsPointByName gpsAB (getRoutePoints emptyWsRouteSE).1 = none ∧
      RouteOptimizer.optimizeRoute (some emptyWsRouteSE) gpsAB convId =
        Except.error
          ("ルートの最適化中にエラーが発生しました: " ++ "開始または終了ポイントが見つかりません。")) ∧
    ((RouteOptimizer.getGpsPointByName gpsSE (getRoutePoints emptyWsRouteSE).1).isSome ∧
      (RouteOptimizer.getGpsPointByName gpsSE (getRoutePoints emptyWsRouteSE).2).isSome ∧
      (getWaypoints emptyWsRouteSE).length = 0 ∧
      RouteOptimizer.optimizeRoute (some emptyWsRouteSE) gpsSE convId =
        Except.error
          ("ルートの最適化中にエラーが発生しました: " ++ "最適化する中間点がありません。")) ∧
    (∀ r, PointOverlay.optimizeImageParameters { naturalWidth := 726, naturalHeight := 624 }
        0.8 15 [] = some r → 0 < r.scale) :=
  ⟨(claim_C2_amended emptyWsRouteSE gpsSE convId).1,
    ⟨rfl, (claim_C2_amended emptyWsRouteSE gpsAB convId).2.1 (Or.inl rfl)⟩,
    ⟨by rfl, by rfl, by rfl,
      (claim_C2_amended emptyWsRouteSE gpsSE convId).2.2.1 (by rfl) (by rfl) (by rfl)⟩,
    ((claim_C2_amended emptyWsRouteSE gpsSE convId).2.2.2
      { naturalWidth := 726, naturalHeight := 624 } 0.8 15 []).1⟩

/-- C7: counterexample.  A route whose waypoint array is empty does not
    make the route optimizer succeed with an empty order: optimizeRoute
    raises an error instead. -/
theorem claim_C7_counterexample :
    RouteOptimizer.optimizeRoute (some emptyWsRouteSE) gpsSE convId =
      Except.error ("ルートの最適化中にエラーが発生しました: " ++ "最適化する中間点がありません。") := by
  rfl

/-- C7 (amended): optimizeRoute rejects an empty waypoint set with an
    error rather than succeeding; at the level of the reordering and
    distance helpers the claimed behavior does hold: the order of an empty
    list is empty, the total distance then reduces to the direct
    start-to-end distance, and a single waypoint is returned unchanged. -/
theorem claim_C7_amended (s e : ℝ × ℝ) (w : CWaypoint) :
    RouteOptimizer.optimizeWaypointOrder s e [] = [] ∧
    RouteOptimizer.calculateTotalDistance s e [] =
      some (RouteOptimizer.calculateDistance s e) ∧
    RouteOptimizer.optimizeWaypointOrder s e [w] = [w] := by
  refine ⟨?_, ?_, ?_⟩
  · rw [RouteOptimizer.optimizeWaypointOrder, if_pos (by simp)]
  · rw [RouteOptimizer.calculateTotalDistance, if_pos (by simp)]
  · rw [RouteOptimizer.optimizeWaypointOrder, if_pos (by simp)]

theorem getElem?_mapIdx {α β : Type} (l : List α) (f : ℕ → α → β) (i : ℕ) :
    (l.mapIdx f)[i]? = (l[i]?).map (f i) := by
  rcases Nat.lt_or_ge i l.length with h | h
  · have h' : i < (l.mapIdx f).length := by rw [List.length_mapIdx]; exact h
    rw [List.getElem?_eq_getElem h', List.getElem?_eq_getElem h]
    simp only [Option.map_some']
    congr 1
    have := List.get_mapIdx l f i h h'
    simp only [List.get_eq_getElem] at this
    exact this
  · rw [List.getElem?_eq_none (by rw [List.length_mapIdx]; exact h),
      List.getElem?_eq_none h]
    simp

/-- C9: (a) initializeWaypointData keeps an existing waypoint index and
    assigns array position + 1 where the index is missing; (b) whenever
    optimizeRoute succeeds, the waypoint at output position i carries
    index i + 1, so the returned indices are exactly 1..N in order. -/
theorem claim_C9_indexing :
    (∀ (routeData : Route) (i : ℕ),
      ((RouteDataManager.initializeWaypointData routeData)[i]?).map (fun w => w.index) =
        ((getWaypoints routeData)[i]?).map (fun w => some ((w.index).getD ((i : ℤ) + 1)))) ∧
    (∀ (selectedRoute : Option Route) (gpsData : Option (List GpsMarker))
      (conv : ℝ → ℝ → Option (ℝ × ℝ)) (out : List CWaypoint),
      RouteOptimizer.optimizeRoute selectedRoute gpsData conv = Except.ok out →
      ∀ i : ℕ, i < out.length →
        (out[i]?).map (fun w => w.index) = some (some ((i : ℤ) + 1))) := by
  constructor
  · intro routeData i
    rw [RouteDataManager.initializeWaypointData]
    rw [getElem?_mapIdx]
    cases hw : (getWaypoints routeData)[i]? with
    | none => simp
    | some w =>
      simp only [Option.map_some']
      cases hidx : w.index with
      | none => simp [hidx]
      | some k => simp [hidx]
  · intro selectedRoute gpsData conv out h i hi
    match selectedRoute with
    | none => simp [RouteOptimizer.optimizeRoute] at h
    | some route =>
      simp only [RouteOptimizer.optimizeRoute] at h
      split at h
      · exact absurd h (by simp)
      · split at h
        · exact absurd h (by simp)
        · split at h
          · exact absurd h (by simp)
          · rw [Except.ok.injEq] at h
            rw [← h]
            rw [← h] at hi
            rw [List.length_mapIdx] at hi
            rw [getElem?_mapIdx, List.getElem?_eq_getElem hi]
            simp

/-- C9 witness: the theorem applied to a concrete successful run on a
    one-waypoint route whose waypoint has no index. -/
theorem claim_C9_indexing_witness :
    (RouteOptimizer.optimizeRoute (some oneWpRoute) gpsAB convId = Except.ok oneWpOut ∧
      0 < oneWpOut.length) ∧
    (oneWpOut[0]?).map (fun w => w.index) = some (some ((0 : ℤ) + 1)) :=
  ⟨⟨oneWpRoute_eval, by simp [oneWpOut]⟩,
    claim_C9_indexing.2 (some oneWpRoute) gpsAB convId oneWpOut oneWpRoute_eval 0
      (by simp [oneWpOut])⟩

namespace PointOverlay

theorem calculateOptimalScale_pos (img : ImageSize) (zoom : ℕ)
    (matchedPairs : List MatchedPair) (centerLat centerLng : ℝ) :
    0 < calculateOptimalScale img zoom matchedPairs centerLat centerLng := by
  simp only [calculateOptimalScale]
  exact lt_of_lt_of_le (by norm_num) (le_max_right _ _)

theorem candidateStep_eq (img : ImageSize) (zoom : ℕ) (matchedPairs : List MatchedPair)
    (st : CalibState) (delta : ℝ × ℝ) :
    candidateStep img zoom matchedPairs st delta =
      specCandidateStep img zoom matchedPairs st delta := by
  simp only [candidateStep, specCandidateStep]
  rw [if_pos (calculateOptimalScale_pos img zoom matchedPairs _ _)]

theorem iterStep_eq (img : ImageSize) (zoom : ℕ) (matchedPairs : List MatchedPair) :
    iterStep img zoom matchedPairs = specIterStep img zoom matchedPairs := by
  funext st iter
  simp only [iterStep, specIterStep, specGrid, List.foldl_cons, List.foldl_nil,
    candidateStep_eq]

end PointOverlay

/-- C3: the calibration local search is exactly the procedure the claim
    describes — 50 iterations (List.range 50), each evaluating the 3x3
    grid of candidate centers at the current center plus each of
    {-step, 0, +step} with step = 0.0001 * 0.9 ^ iteration, computing each
    candidate's optimal scale and keeping a candidate only when its total
    squared error is strictly smaller than the best so far (first-found
    wins on ties).  The code's additional positivity guard on the optimal
    scale is provably vacuous (the scale is floored at 0.001), and both
    sides are pure functions, hence deterministic. -/
theorem claim_C3_localSearch (img : ImageSize) (currentScaleValue : ℝ) (zoom : ℕ)
    (matchedPairs : List PointOverlay.MatchedPair) :
    PointOverlay.optimizeImageParameters img currentScaleValue zoom matchedPairs =
      PointOverlay.specLocalSearch img currentScaleValue zoom matchedPairs := by
  simp only [PointOverlay.optimizeImageParameters, PointOverlay.specLocalSearch,
    PointOverlay.iterStep_eq]

/-- C8: for image dimensions 726 x 624, zoom 15, center
    (34.853667, 135.472041) and scale 0.8, converting the exact image
    center pixel (363, 312) yields exactly the frame center: both offsets
    vanish identically. -/
theorem claim_C8_center :
    PointOverlay.convertImageToMapCoords
        (some { naturalWidth := 726, naturalHeight := 624 })
        15 363 312 34.853667 135.472041 0.8 =
      some { lat := 34.853667, lng := 135.472041 } := by
  simp only [PointOverlay.convertImageToMapCoords]
  norm_num

/-- C5: counterexample.  (a) geo-to-pixel conversion with a degenerate
    bounds rectangle (zero width and height) but valid dimensions does not
    return the sentinel: it returns a value (whose coordinates in JS are
    non-finite, the division by zero being unguarded).  (b) the
    bounds-based pixel-to-geo conversion with image width 0 likewise
    returns a value instead of the sentinel. -/
theorem claim_C5_counterexample :
    (RouteEditor.convertMapToImageCoordinates
        (some { north := 5, south := 5, east := 7, west := 7 })
        (some { naturalWidth := 726, naturalHeight := 624 }) 1 2).isSome = true ∧
    (PointOverlay.convertImageCoordsToMapCoords
        (some { north := 34, south := 33, east := 135, west := 134 })
        (some ()) 0 624 10 20).isSome = true := by
  constructor
  · simp only [RouteEditor.convertMapToImageCoordinates]
    rw [if_neg (by norm_num)]
    rfl
  · rfl

/-- C5 (amended): each conversion returns its sentinel exactly on its own
    explicit guards, which are narrower than the claim states:
    geo-to-pixel (RouteEditor) checks a missing overlay/element and
    exactly-zero natural dimensions but not bounds degeneracy; the
    bounds-based pixel-to-geo (PointOverlay.convertImageCoordsToMapCoords)
    checks only a missing overlay or image element, never the dimensions;
    the analytic pixel-to-geo (PointOverlay.convertImageToMapCoords)
    checks only a missing image.  Unguarded degenerate inputs yield
    non-sentinel results (non-finite coordinates in JS where a division by
    zero occurs). -/
theorem claim_C5_amended :
    (∀ (b : Bounds) (img : ImageSize) (lat lng : ℝ),
      RouteEditor.convertMapToImageCoordinates (some b) (some img) lat lng = none ↔
        img.naturalWidth = 0 ∨ img.naturalHeight = 0) ∧
    (∀ (img : Option ImageSize) (lat lng : ℝ),
      RouteEditor.convertMapToImageCoordinates none img lat lng = none) ∧
    (∀ (b : Bounds) (w h x y : ℝ),
      (PointOverlay.convertImageCoordsToMapCoords (some b) (some ()) w h x y).isSome = true) ∧
    (∀ (img : ImageSize) (zoom : ℕ) (x y clat clng s : ℝ),
      (PointOverlay.convertImageToMapCoords (some img) zoom x y clat clng s).isSome = true) ∧
    (∀ (zoom : ℕ) (x y clat clng s : ℝ),
      PointOverlay.convertImageToMapCoords none zoom x y clat clng s = none) := by
  refine ⟨?_, ?_, ?_, ?_, ?_⟩
  · intro b img lat lng
    simp only [RouteEditor.convertMapToImageCoordinates]
    split_ifs with hp <;> simp [hp]
  · intro img lat lng
    rfl
  · intro b w h x y
    rfl
  · intro img zoom x y clat clng s
    rfl
  · intro zoom x y clat clng s
    rfl

/-- C4: for a non-degenerate frame (nonzero scale and non-vanishing
    cosine at the center latitude) and nonzero image dimensions, applying
    the analytic pixel-to-geo transform and then the bounds-relative
    geo-to-pixel inverse — with the displayed bounds derived from the same
    frame by updateImageDisplay — recovers any pixel strictly inside the
    image exactly (hence within sub-pixel tolerance). -/
theorem claim_C4_roundtrip (centerLat centerLng scale : ℝ) (zoom : ℕ) (w h x y : ℝ)
    (hw : w ≠ 0) (hh : h ≠ 0) (hs : scale ≠ 0)
    (hc : Real.cos (centerLat * Real.pi / 180) ≠ 0)
    (hx0 : 0 < x) (hxw : x < w) (hy0 : 0 < y) (hyh : y < h) :
    (PointOverlay.convertImageToMapCoords (some { naturalWidth := w, naturalHeight := h })
        zoom x y centerLat centerLng scale).bind
      (fun g => RouteEditor.convertMapToImageCoordinates
        (some (ImageOverlay.updateImageDisplayBounds centerLat centerLng scale zoom w h))
        (some { naturalWidth := w, naturalHeight := h }) g.lat g.lng) =
      some { x := x, y := y } := by
  have hpi : Real.pi ≠ 0 := Real.pi_ne_zero
  have h2z : (2 : ℝ) ^ zoom ≠ 0 := by positivity
  simp only [PointOverlay.convertImageToMapCoords, RouteEditor.convertMapToImageCoordinates,
    ImageOverlay.updateImageDisplayBounds, metersPerPixel, Option.some_bind]
  rw [if_neg (by simp [hw, hh])]
  rw [Option.some.injEq, PixelPoint.mk.injEq]
  constructor
  · field_simp
    ring
  · field_simp
    ring

/-- C4 witness: the round-trip theorem applied to the concrete frame with
    center latitude 0 (cosine 1), scale 0.8, zoom 15, a 726 x 624 image
    and the interior pixel (100, 200). -/
theorem claim_C4_roundtrip_witness :
    ((726 : ℝ) ≠ 0 ∧ (624 : ℝ) ≠ 0 ∧ (0.8 : ℝ) ≠ 0 ∧
      Real.cos ((0 : ℝ) * Real.pi / 180) ≠ 0 ∧
      (0 : ℝ) < 100 ∧ (100 : ℝ) < 726 ∧ (0 : ℝ) < 200 ∧ (200 : ℝ) < 624) ∧
    (PointOverlay.convertImageToMapCoords (some { naturalWidth := 726, naturalHeight := 624 })
        15 100 200 0 135.5 0.8).bind
      (fun g => RouteEditor.convertMapToImageCoordinates
        (some (ImageOverlay.updateImageDisplayBounds 0 135.5 0.8 15 726 624))
        (some { naturalWidth := 726, naturalHeight := 624 }) g.lat g.lng) =
      some { x := 100, y := 200 } :=
  ⟨⟨by norm_num, by norm_num, by norm_num, by norm_num [Real.cos_zero],
    by norm_num, by norm_num, by norm_num, by norm_num⟩,
    claim_C4_roundtrip 0 135.5 0.8 15 726 624 100 200 (by norm_num) (by norm_num)
      (by norm_num) (by norm_num [Real.cos_zero]) (by norm_num) (by norm_num)
      (by norm_num) (by norm_num)⟩

end TrailMapper

end Theorems
